import Mathlib

/-!
Verification development for the MediQuery data pipeline
(data-pipeline/mimic_processor.py, data-pipeline/synthea_processor.py,
data-pipeline/process_data.py, elasticsearch/setup_indices.py).

Shallow embedding conventions:
* Python strings are Lean `String`; `needle in haystack` is `pyContains`.
* Python ints are `Int` or `Nat`; Python floats that only undergo exact
  arithmetic (sums, products by decimal literals, division by counts) are `Rat`.
* Dates and datetimes are modelled as integer day numbers already parsed by
  pandas; ISO-formatted datetime strings are carried as `String` values.
* A pandas row is a structure whose optional (possibly-NaN/absent) columns are
  `Option` fields.
* Python dicts handed to the sink are association lists `List (String × DVal)`.
* Exceptions are `Except String`; a caught-and-swallowed exception is the
  `.error` branch mapped to the recovery value.
* External library calls with no logic in this repository (hashlib.md5's hex
  digest, float() parsing) are universally quantified function parameters.
-/

/-- Matches when the first character list is a prefix of the second
(helper for Python substring containment). -/
def subAt : List Char → List Char → Bool
  | [], _ => true
  | _ :: _, [] => false
  | a :: as, b :: bs => a == b && subAt as bs

/-- The first character list occurs contiguously inside the second. -/
def subIn (needle : List Char) : List Char → Bool
  | [] => needle.isEmpty
  | b :: bs => subAt needle (b :: bs) || subIn needle bs

/-- Python `needle in hay` on strings: contiguous substring containment. -/
def pyContains (hay needle : String) : Bool :=
  subIn needle.data hay.data

/-- Python str.lower() (ASCII; all keywords in this codebase are ASCII). -/
def py_lower (s : String) : String :=
  ⟨s.data.map Char.toLower⟩

/-- Python str.upper() (ASCII). -/
def py_upper (s : String) : String :=
  ⟨s.data.map Char.toUpper⟩

/-- Python slicing s[:n] by characters. -/
def py_take (s : String) (n : Nat) : String :=
  ⟨s.data.take n⟩

/-- Python len(s) in characters. -/
def py_len (s : String) : Nat :=
  s.data.length

/-- Python str.strip(): drop leading and trailing whitespace. -/
def py_strip (s : String) : String :=
  ⟨(s.data.dropWhile Char.isWhitespace).reverse.dropWhile Char.isWhitespace |>.reverse⟩

/-- MIMICDataProcessor._determine_severity (mimic_processor.py lines 166-173):
lower-case the description, return "severe" if it contains one of
"end stage", "severe", "acute"; else "moderate" if it contains "chronic" or
"moderate"; else "mild". -/
def determine_severity (description : String) : String :=
  let desc_lower := py_lower description
  if ["end stage", "severe", "acute"].any (fun term => pyContains desc_lower term) then
    "severe"
  else if ["chronic", "moderate"].any (fun term => pyContains desc_lower term) then
    "moderate"
  else
    "mild"

/-- SyntheaDataProcessor._determine_condition_severity (synthea_processor.py
lines 519-528): lower-case the description, return "severe" if it contains one
of "severe", "acute", "crisis", "emergency"; else "moderate" if it contains
"moderate" or "chronic"; else "mild". -/
def determine_condition_severity (description : String) : String :=
  let desc_lower := py_lower description
  if ["severe", "acute", "crisis", "emergency"].any (fun term => pyContains desc_lower term) then
    "severe"
  else if ["moderate", "chronic"].any (fun term => pyContains desc_lower term) then
    "moderate"
  else
    "mild"

/-- One JSON-like value inside a document handed to the sink (Python dict
values: strings, ints, floats (as exact rationals), booleans, None, lists,
nested dicts). -/
inductive DVal where
  | str : String → DVal
  | int : Int → DVal
  | rat : Rat → DVal
  | bool : Bool → DVal
  | null : DVal
  | list : List DVal → DVal
  | obj : List (String × DVal) → DVal

/-- A document handed to the sink: a Python dict literal as an ordered
association list of field name and value. -/
abbrev Doc := List (String × DVal)

/-- An optional string column rendered into a document: NaN/None becomes
null. -/
def optStr : Option String → DVal
  | none => DVal.null
  | some s => DVal.str s

/-- An optional numeric column rendered into a document. -/
def optRat : Option Rat → DVal
  | none => DVal.null
  | some q => DVal.rat q

/-- The six mandatory document fields
(setup_indices.py line 196, validate_mappings). -/
def required_fields : List String :=
  ["id", "type", "source", "timestamp", "title", "summary"]

/-- The document has an entry for every one of the six mandatory fields. -/
def hasRequiredFields (d : Doc) : Bool :=
  required_fields.all (fun k => d.any (fun kv => kv.1 == k))

/-- A processed Synthea condition dict
(_get_patient_conditions, synthea_processor.py lines 224-236). -/
structure SynCondition where
  id : String
  snomed_code : String
  icd10_code : String
  code_system : String
  description : String
  start_date : Option String
  stop_date : Option String
  status : String
  encounter_id : Option String
  severity : String
  category : String

/-- A processed Synthea medication dict
(_get_patient_medications, synthea_processor.py lines 254-269). -/
structure SynMedication where
  id : String
  code : Option String
  name : String
  description : String
  start_date : Option String
  stop_date : Option String
  status : String
  encounter_id : Option String
  dispenses : Rat
  total_cost : Rat
  payer_coverage : Rat
  medication_class : String
  route : String
  frequency : String

/-- SyntheaDataProcessor._identify_care_gaps (synthea_processor.py lines
498-517): flag "diabetes_without_medication" when some condition description
contains "diabetes" and no medication class contains "antidiabetic"
(case-insensitive); flag "hypertension_without_medication" when some condition
description contains "hypertension" and no medication class is exactly one of
"ACE Inhibitor", "Calcium Channel Blocker", "Beta Blocker". -/
def identify_care_gaps (conditions : List SynCondition)
    (medications : List SynMedication) : List String :=
  let care_gaps : List String := []
  let has_diabetes := conditions.any (fun c => pyContains (py_lower c.description) "diabetes")
  let has_diabetes_med :=
    medications.any (fun m => pyContains (py_lower m.medication_class) "antidiabetic")
  let care_gaps :=
    if has_diabetes && !has_diabetes_med then care_gaps ++ ["diabetes_without_medication"]
    else care_gaps
  let has_hypertension :=
    conditions.any (fun c => pyContains (py_lower c.description) "hypertension")
  let has_bp_med :=
    medications.any (fun m =>
      ["ACE Inhibitor", "Calcium Channel Blocker", "Beta Blocker"].contains m.medication_class)
  let care_gaps :=
    if has_hypertension && !has_bp_med then care_gaps ++ ["hypertension_without_medication"]
    else care_gaps
  care_gaps

/-- The fixed high-risk condition keyword list
(_assess_risk_profile, synthea_processor.py line 476). -/
def high_risk_conditions : List String :=
  ["diabetes", "hypertension", "heart", "stroke", "cancer"]

/-- A condition description matches the high-risk keyword list. -/
def isHighRiskCond (c : SynCondition) : Bool :=
  high_risk_conditions.any (fun risk_cond => pyContains (py_lower c.description) risk_cond)

/-- The per-condition step of the risk-score loop
(_assess_risk_profile, synthea_processor.py lines 478-482). -/
def risk_cond_step (acc : Nat × List String) (c : SynCondition) : Nat × List String :=
  if isHighRiskCond c then (acc.1 + 1, acc.2 ++ [c.description]) else acc

/-- The risk-profile dict returned by _assess_risk_profile. -/
structure RiskProfile where
  overall_risk_score : Nat
  risk_level : String
  risk_factors : List String

/-- SyntheaDataProcessor._assess_risk_profile (synthea_processor.py lines
462-496): 2 points and factor "advanced_age" when age > 65, else 1 point and
factor "middle_age" when age > 45; one point and the description as a factor
for each condition matching the high-risk keyword list; level "high" when the
score is at least 4, "medium" when at least 2, else "low". The gender argument
is accepted but unused, as in the source. -/
def assess_risk_profile (conditions : List SynCondition) (age : Int)
    (gender : Option String) : RiskProfile :=
  let base : Nat × List String :=
    if age > 65 then (2, ["advanced_age"])
    else if age > 45 then (1, ["middle_age"])
    else (0, [])
  let acc := conditions.foldl risk_cond_step base
  let risk_score := acc.1
  let risk_level :=
    if risk_score ≥ 4 then "high"
    else if risk_score ≥ 2 then "medium"
    else "low"
  { overall_risk_score := risk_score, risk_level := risk_level, risk_factors := acc.2 }

/-- MIMICDataProcessor._generate_patient_id (mimic_processor.py lines 245-249):
md5 hex digest of "patient_{subject_id}_mimic", first 8 characters, prefixed
with "pat_". The md5 hex digest (hashlib, external to this repository) is a
universally quantified function parameter. -/
def generate_patient_id (md5_hexdigest : String → String) (subject_id : Nat) : String :=
  let hash_input := "patient_" ++ toString subject_id ++ "_mimic"
  let hash_hex := py_take (md5_hexdigest hash_input) 8
  "pat_" ++ hash_hex

/-- The patient id chosen in _process_single_patient (mimic_processor.py line
93): the anonymized hash id when self.anonymize, else "patient_{subject_id}"
verbatim. -/
def mimic_patient_id (md5_hexdigest : String → String) (anonymize : Bool)
    (subject_id : Nat) : String :=
  if anonymize then generate_patient_id md5_hexdigest subject_id
  else "patient_" ++ toString subject_id

/-- ICD-9 to ICD-10 static crosswalk (mimic_processor.py lines 28-35). -/
def icd9_to_icd10_map : List (String × String) :=
  [("250.00", "E11.9"), ("401.9", "I10"), ("272.4", "E78.5"),
   ("414.01", "I25.10"), ("496", "J44.1"), ("585.6", "N18.6")]

/-- Python dict.get(key, default) over an association list. -/
def dictGet (m : List (String × String)) (key dflt : String) : String :=
  match m.lookup key with
  | some v => v
  | none => dflt

/-- MIMICDataProcessor._get_condition_description (mimic_processor.py lines
154-164). -/
def get_condition_description (icd9_code : String) : String :=
  dictGet
    [("250.00", "Type 2 diabetes mellitus without complications"),
     ("401.9", "Essential hypertension"),
     ("272.4", "Hyperlipidemia, unspecified"),
     ("414.01", "Coronary atherosclerosis"),
     ("496", "Chronic obstructive pulmonary disease"),
     ("585.6", "End stage renal disease")]
    icd9_code
    ("Medical condition (ICD: " ++ icd9_code ++ ")")

/-- MIMICDataProcessor._categorize_condition (mimic_processor.py lines
175-188): first matching category in insertion order, else "general". -/
def categorize_condition (description : String) : String :=
  let desc_lower := py_lower description
  let categories : List (String × List String) :=
    [("cardiovascular", ["heart", "cardiac", "hypertension"]),
     ("endocrine", ["diabetes", "thyroid"]),
     ("respiratory", ["lung", "pulmonary", "copd"]),
     ("renal", ["kidney", "renal"])]
  match categories.find? (fun ck => ck.2.any (fun keyword => pyContains desc_lower keyword)) with
  | some ck => ck.1
  | none => "general"

/-- One row of DIAGNOSES_ICD.csv with the columns the processor reads;
ICD9_CODE uses the row.get default "" for an absent value. -/
structure DiagRow where
  SUBJECT_ID : Nat
  ICD9_CODE : String

/-- A processed MIMIC condition dict
(_get_patient_diagnoses, mimic_processor.py lines 142-150). -/
structure MimicCondition where
  id : String
  icd9_code : String
  icd10_code : String
  description : String
  status : String
  severity : String
  category : String

/-- Body of the per-diagnosis loop of _get_patient_diagnoses: skip codes that
strip to empty, enumerate ids from the running length. -/
def diag_step (acc : List MimicCondition) (d : DiagRow) : List MimicCondition :=
  let icd9_code := py_strip d.ICD9_CODE
  if icd9_code = "" then acc
  else
    let icd10_code := dictGet icd9_to_icd10_map icd9_code icd9_code
    let description := get_condition_description icd9_code
    acc ++ [{ id := "condition_" ++ toString (acc.length + 1),
              icd9_code := icd9_code,
              icd10_code := icd10_code,
              description := description,
              status := "active",
              severity := determine_severity description,
              category := categorize_condition description }]

/-- MIMICDataProcessor._get_patient_diagnoses (mimic_processor.py lines
126-152): filter the diagnoses table on SUBJECT_ID, convert each row. -/
def get_patient_diagnoses (subject_id : Nat) (diagnoses : List DiagRow) :
    List MimicCondition :=
  ((diagnoses.filter (fun d => d.SUBJECT_ID == subject_id)).foldl diag_step [])

/-- One row of ADMISSIONS.csv with the columns the processor reads; admit and
discharge times as parsed day numbers. -/
structure AdmRow where
  SUBJECT_ID : Nat
  ADMITTIME : Int
  DISCHTIME : Int
  ADMISSION_TYPE : String

/-- Occurrence counts of each value, keyed in first-appearance order (models
pandas value_counts().to_dict(); the dict is consumed as an unordered map). -/
def valueCounts (l : List String) : List (String × Nat) :=
  (l.foldl (fun acc v => if acc.contains v then acc else acc ++ [v]) []).map
    (fun v => (v, l.count v))

/-- MIMICDataProcessor._process_admissions (mimic_processor.py lines 190-204):
empty input gives {total_admissions: 0, avg_length_of_stay: 0}; otherwise the
count, the mean length of stay in days, and per-type counts. -/
def process_admissions (admissions : List AdmRow) : DVal :=
  if admissions.isEmpty then
    DVal.obj [("total_admissions", DVal.int 0), ("avg_length_of_stay", DVal.int 0)]
  else
    let los : List Int := admissions.map (fun a => a.DISCHTIME - a.ADMITTIME)
    DVal.obj
      [("total_admissions", DVal.int admissions.length),
       ("avg_length_of_stay",
        DVal.rat ((los.map (fun d => (d : Rat))).sum / (admissions.length : Rat))),
       ("admission_types",
        DVal.obj ((valueCounts (admissions.map (·.ADMISSION_TYPE))).map
          (fun kv => (kv.1, DVal.int kv.2))))]

/-- MIMICDataProcessor._identify_risk_factors (mimic_processor.py lines
206-218). -/
def identify_risk_factors (conditions : List MimicCondition) : List String :=
  let descriptions := conditions.map (fun c => py_lower c.description)
  let risk_factors : List String := []
  let risk_factors :=
    if descriptions.any (fun desc => pyContains desc "diabetes") then
      risk_factors ++ ["diabetes_mellitus"] else risk_factors
  let risk_factors :=
    if descriptions.any (fun desc => pyContains desc "hypertension") then
      risk_factors ++ ["hypertension"] else risk_factors
  let risk_factors :=
    if descriptions.any (fun desc => pyContains desc "renal") then
      risk_factors ++ ["chronic_kidney_disease"] else risk_factors
  risk_factors

/-- MIMICDataProcessor._calculate_complexity (mimic_processor.py lines
220-226): 0.5 per condition, 2.0 per severe condition, 0.3 per admission when
any, capped at 20.0. -/
def calculate_complexity (conditions : List MimicCondition)
    (admissions : List AdmRow) : Rat :=
  let score : Rat := 0
  let score := score + conditions.length * (1 / 2 : Rat)
  let score := score + 2 * ((conditions.filter (fun c => c.severity == "severe")).length)
  let score :=
    if !admissions.isEmpty then score + admissions.length * (3 / 10 : Rat) else score
  min score 20

/-- MIMICDataProcessor._generate_summary (mimic_processor.py lines 228-243).
Python truthiness: age None or 0 gives "adult"; gender None or "" gives
"unknown gender". -/
def generate_summary (age : Option Int) (gender : Option String)
    (conditions : List MimicCondition) : String :=
  let age_str :=
    match age with
    | some a => if a ≠ 0 then toString a ++ "-year-old" else "adult"
    | none => "adult"
  let gender_str :=
    match gender with
    | some g => if g ≠ "" then py_lower g else "unknown gender"
    | none => "unknown gender"
  if conditions.isEmpty then age_str ++ " " ++ gender_str ++ " patient"
  else
    let primary_conditions := (conditions.take 2).map (·.description)
    let condition_text := String.intercalate ", " primary_conditions
    let summary := age_str ++ " " ++ gender_str ++ " patient with " ++ condition_text
    if conditions.length > 2 then
      summary ++ " and " ++ toString (conditions.length - 2) ++ " additional condition(s)"
    else summary

/-- One row of PATIENTS.csv with the columns the processor reads; DOB and DOD
as parsed day numbers, none when NaN/absent or unparseable. -/
structure MimicPatientRow where
  SUBJECT_ID : Nat
  GENDER : Option String
  DOB : Option Int
  DOD : Option Int

/-- MIMICDataProcessor._calculate_age (mimic_processor.py lines 114-124): none
when DOB is missing; otherwise floor-divide by 365 the day difference to DOD
when present, else to the current date. -/
def calculate_age (patient : MimicPatientRow) (today : Int) : Option Int :=
  match patient.DOB with
  | none => none
  | some dob =>
    let reference_date := patient.DOD.getD today
    some (Int.fdiv (reference_date - dob) 365)

/-- A MIMIC condition dict as a document value. -/
def mimicCondToDVal (c : MimicCondition) : DVal :=
  DVal.obj
    [("id", DVal.str c.id), ("icd9_code", DVal.str c.icd9_code),
     ("icd10_code", DVal.str c.icd10_code), ("description", DVal.str c.description),
     ("status", DVal.str c.status), ("severity", DVal.str c.severity),
     ("category", DVal.str c.category)]

/-- MIMICDataProcessor._process_single_patient (mimic_processor.py lines
76-112): null when the age is uncomputable or outside [0, 120]; otherwise the
assembled patient document. `today` is the current date as a day number and
`now_iso` the current datetime ISO string (datetime.now()). -/
def process_single_patient (md5_hexdigest : String → String) (anonymize : Bool)
    (today : Int) (now_iso : String) (patient : MimicPatientRow)
    (admissions_df : List AdmRow) (diagnoses_df : List DiagRow) : Option Doc :=
  let subject_id := patient.SUBJECT_ID
  match calculate_age patient today with
  | none => none
  | some age =>
    if ¬ (0 ≤ age ∧ age ≤ 120) then none
    else
      let diagnoses := get_patient_diagnoses subject_id diagnoses_df
      let patient_admissions := admissions_df.filter (fun a => a.SUBJECT_ID == subject_id)
      let admissions_summary := process_admissions patient_admissions
      let patient_id := mimic_patient_id md5_hexdigest anonymize subject_id
      some
        [("id", DVal.str patient_id),
         ("demographics", DVal.obj
           [("age", DVal.int age),
            ("gender", DVal.str ((patient.GENDER).getD "Unknown")),
            ("date_of_birth", if anonymize then DVal.null
                              else match patient.DOB with
                                   | some d => DVal.int d
                                   | none => DVal.null),
            ("is_deceased", DVal.bool patient.DOD.isSome)]),
         ("conditions", DVal.list (diagnoses.map mimicCondToDVal)),
         ("admissions_summary", admissions_summary),
         ("risk_factors", DVal.list ((identify_risk_factors diagnoses).map DVal.str)),
         ("complexity_score", DVal.rat (calculate_complexity diagnoses patient_admissions)),
         ("type", DVal.str "patient"),
         ("source", DVal.str "MIMIC-III"),
         ("timestamp", DVal.str now_iso),
         ("title", DVal.str ("Patient " ++ patient_id ++ " - " ++ toString age ++ "yr "
                             ++ (patient.GENDER).getD "Unknown")),
         ("summary", DVal.str (generate_summary (some age) patient.GENDER diagnoses))]

/-- One reference-range entry of self.lab_ranges (mimic_processor.py lines
37-41). `range_display` carries the "normal_min-normal_max" text exactly as
Python renders the tuple entries in the f-string. -/
structure LabRange where
  normal_lo : Rat
  normal_hi : Rat
  unit : String
  range_display : String
  critical_high : Option Rat
  critical_low : Option Rat

/-- The lab reference table (mimic_processor.py lines 37-41). -/
def lab_ranges : List (String × LabRange) :=
  [("GLUCOSE", ⟨70, 99, "mg/dL", "70-99", some 400, none⟩),
   ("CREATININE", ⟨7/10, 13/10, "mg/dL", "0.7-1.3", some 5, none⟩),
   ("HEMOGLOBIN", ⟨12, 31/2, "g/dL", "12.0-15.5", none, some 7⟩)]

/-- MIMICDataProcessor._interpret_lab_result (mimic_processor.py lines
301-338). `parse_float` models Python float(value): none when conversion
raises. -/
def interpret_lab_result (parse_float : String → Option Rat) (test_name : String)
    (value : String) : DVal :=
  let test_key := py_upper test_name
  match lab_ranges.lookup test_key with
  | none =>
    DVal.obj [("status", DVal.str "unknown"),
              ("interpretation", DVal.str "Reference range not available")]
  | some range_info =>
    match parse_float value with
    | none =>
      DVal.obj [("status", DVal.str "invalid"),
                ("interpretation", DVal.str "Non-numeric value")]
    | some numeric_value =>
      let base :=
        if range_info.normal_lo ≤ numeric_value ∧ numeric_value ≤ range_info.normal_hi then
          ("normal", test_name ++ " is within normal range")
        else if numeric_value < range_info.normal_lo then
          ("low", test_name ++ " is below normal range")
        else
          ("high", test_name ++ " is above normal range")
      let crit_high := range_info.critical_high.any (fun ch => decide (numeric_value > ch))
      let crit_low := range_info.critical_low.any (fun cl => decide (numeric_value < cl))
      let final :=
        if crit_high then
          ("critical_high", "CRITICAL: " ++ test_name ++ " is critically elevated")
        else if crit_low then
          ("critical_low", "CRITICAL: " ++ test_name ++ " is critically low")
        else base
      DVal.obj [("status", DVal.str final.1),
                ("interpretation", DVal.str final.2),
                ("reference_range", DVal.str (range_info.range_display ++ " " ++ range_info.unit))]

/-- One row of LABEVENTS.csv with the columns read by either lab processor;
CHARTTIME as the ISO string of the parsed chart time. -/
structure LabRow where
  ROW_ID : Nat
  SUBJECT_ID : Nat
  HADM_ID : Option Nat
  ITEMID : Nat
  VALUE : Option String
  VALUENUM : Option Rat
  VALUEUOM : Option String
  FLAG : Option String
  CHARTTIME : Option String

/-- Per-row body of MIMICDataProcessor.process_lab_events_enhanced
(mimic_processor.py lines 269-295): rows with a missing VALUE are skipped;
otherwise the enhanced lab-result document. -/
def process_lab_event_enhanced (parse_float : String → Option Rat)
    (md5_hexdigest : String → String) (anonymize : Bool)
    (lab_items : List (Nat × String)) (lab : LabRow) : Option Doc :=
  match lab.VALUE with
  | none => none
  | some value =>
    let lab_name := (lab_items.lookup lab.ITEMID).getD ("Lab Item " ++ toString lab.ITEMID)
    let patient_id := mimic_patient_id md5_hexdigest anonymize lab.SUBJECT_ID
    let interpretation := interpret_lab_result parse_float lab_name value
    some
      [("id", DVal.str ("lab_" ++ toString lab.ROW_ID)),
       ("patient_id", DVal.str patient_id),
       ("test_name", DVal.str lab_name),
       ("value", DVal.str value),
       ("value_num", optRat lab.VALUENUM),
       ("unit", DVal.str (lab.VALUEUOM.getD "")),
       ("flag", DVal.str (lab.FLAG.getD "")),
       ("timestamp", optStr lab.CHARTTIME),
       ("type", DVal.str "lab-result"),
       ("source", DVal.str "MIMIC-III"),
       ("title", DVal.str (lab_name ++ " - " ++ value)),
       ("summary", DVal.str ("Lab result: " ++ lab_name ++ " = " ++ value ++ " "
                             ++ lab.VALUEUOM.getD "")),
       ("interpretation", interpretation)]

/-- SNOMED CT to ICD-10 static crosswalk (synthea_processor.py lines 41-49). -/
def snomed_to_icd10 : List (String × String) :=
  [("44054006", "E11.9"), ("38341003", "I10"), ("55822004", "E78.5"),
   ("233604007", "J18.9"), ("195967001", "J44.1"), ("49436004", "F41.9"),
   ("35489007", "F33.9")]

/-- Medication name to therapeutic class table (synthea_processor.py lines
52-60). -/
def med_classes : List (String × String) :=
  [("metformin", "Antidiabetic"), ("insulin", "Antidiabetic"),
   ("lisinopril", "ACE Inhibitor"), ("amlodipine", "Calcium Channel Blocker"),
   ("atorvastatin", "Statin"), ("aspirin", "Antiplatelet"),
   ("ibuprofen", "NSAID")]

/-- SyntheaDataProcessor._categorize_synthea_condition (synthea_processor.py
lines 530-547): first matching category in insertion order, else "general". -/
def categorize_synthea_condition (description : String) : String :=
  let desc_lower := py_lower description
  let categories : List (String × List String) :=
    [("cardiovascular", ["hypertension", "heart", "cardiac", "stroke", "coronary"]),
     ("endocrine", ["diabetes", "thyroid", "obesity", "metabolic"]),
     ("respiratory", ["asthma", "copd", "pneumonia", "bronchitis"]),
     ("mental_health", ["depression", "anxiety", "bipolar", "schizophrenia"]),
     ("musculoskeletal", ["arthritis", "osteoporosis", "fracture"]),
     ("infectious", ["infection", "sepsis", "pneumonia", "influenza"])]
  match categories.find? (fun ck => ck.2.any (fun keyword => pyContains desc_lower keyword)) with
  | some ck => ck.1
  | none => "general"

/-- One row of Synthea conditions.csv with the columns the processor reads
(CODE and DESCRIPTION use the row.get default ""). -/
structure CondRow where
  PATIENT : String
  CODE : String
  DESCRIPTION : String
  START : Option String
  STOP : Option String
  ENCOUNTER : Option String

/-- Per-row body of _get_patient_conditions (synthea_processor.py lines
220-238). -/
def syn_cond_step (acc : List SynCondition) (condition : CondRow) : List SynCondition :=
  let snomed_code := condition.CODE
  let icd10_code := dictGet snomed_to_icd10 snomed_code snomed_code
  acc ++ [{ id := "condition_" ++ toString (acc.length + 1),
            snomed_code := snomed_code,
            icd10_code := icd10_code,
            code_system := "SNOMED-CT",
            description := condition.DESCRIPTION,
            start_date := condition.START,
            stop_date := condition.STOP,
            status := if condition.STOP.isSome then "resolved" else "active",
            encounter_id := condition.ENCOUNTER,
            severity := determine_condition_severity condition.DESCRIPTION,
            category := categorize_synthea_condition condition.DESCRIPTION }]

/-- SyntheaDataProcessor._get_patient_conditions (synthea_processor.py lines
212-240): filter on PATIENT, convert each row; status is "resolved" exactly
when a STOP date is present, else "active". -/
def get_patient_conditions (patient_id : String) (conditions_df : List CondRow) :
    List SynCondition :=
  ((conditions_df.filter (fun c => c.PATIENT == patient_id)).foldl syn_cond_step [])

/-- Split a string on whitespace runs, dropping empty pieces, accumulating the
current word in reverse. -/
def splitWsAux : List Char → List Char → List String
  | [], cur => [⟨cur.reverse⟩]
  | c :: cs, cur =>
    if c.isWhitespace then ⟨cur.reverse⟩ :: splitWsAux cs []
    else splitWsAux cs (c :: cur)

/-- Python str.split() with no argument: split on whitespace, drop empties. -/
def py_split_ws (s : String) : List String :=
  (splitWsAux s.data []).filter (fun w => w ≠ "")

/-- SyntheaDataProcessor._extract_medication_name (synthea_processor.py lines
291-306): first whitespace-separated word whose lower-case form contains none
of "mg", "ml", "tablet", "capsule"; else the first word; "Unknown medication"
for an empty description or no words. -/
def extract_medication_name (description : String) : String :=
  if description = "" then "Unknown medication"
  else
    let name_patterns := ["mg", "ml", "tablet", "capsule"]
    let words := py_split_ws description
    match words.find?
        (fun word => !(name_patterns.any (fun pattern => pyContains (py_lower word) pattern))) with
    | some word => word
    | none =>
      match words with
      | [] => "Unknown medication"
      | w :: _ => w

/-- SyntheaDataProcessor._get_medication_class (synthea_processor.py lines
308-316): first table entry whose name occurs in the lower-cased medication
name, else "Unknown". -/
def get_medication_class (med_name : String) : String :=
  let med_lower := py_lower med_name
  match med_classes.find? (fun mc => pyContains med_lower mc.1) with
  | some mc => mc.2
  | none => "Unknown"

/-- SyntheaDataProcessor._determine_route (synthea_processor.py lines
318-329). -/
def determine_route (description : String) : String :=
  let description_lower := py_lower description
  if pyContains description_lower "injection" || pyContains description_lower "subcutaneous" then
    "injection"
  else if pyContains description_lower "tablet" || pyContains description_lower "capsule" then
    "oral"
  else if pyContains description_lower "topical" || pyContains description_lower "cream" then
    "topical"
  else "oral"

/-- SyntheaDataProcessor._extract_frequency (synthea_processor.py lines
331-339). -/
def extract_frequency (description : String) : String :=
  if pyContains (py_lower description) "daily" then "once daily"
  else if pyContains (py_lower description) "twice" then "twice daily"
  else "as directed"

/-- One row of Synthea medications.csv with the columns the processor reads. -/
structure MedRow where
  PATIENT : String
  CODE : Option String
  DESCRIPTION : String
  START : Option String
  STOP : Option String
  ENCOUNTER : Option String
  DISPENSES : Option Rat
  TOTALCOST : Option Rat
  PAYER_COVERAGE : Option Rat

/-- Per-row body of _get_patient_medications (synthea_processor.py lines
250-271). -/
def syn_med_step (acc : List SynMedication) (med : MedRow) : List SynMedication :=
  let med_description := med.DESCRIPTION
  let med_name := extract_medication_name med_description
  acc ++ [{ id := "medication_" ++ toString (acc.length + 1),
            code := med.CODE,
            name := med_name,
            description := med_description,
            start_date := med.START,
            stop_date := med.STOP,
            status := if med.STOP.isSome then "discontinued" else "active",
            encounter_id := med.ENCOUNTER,
            dispenses := med.DISPENSES.getD 0,
            total_cost := med.TOTALCOST.getD 0,
            payer_coverage := med.PAYER_COVERAGE.getD 0,
            medication_class := get_medication_class med_name,
            route := determine_route med_description,
            frequency := extract_frequency med_description }]

/-- SyntheaDataProcessor._get_patient_medications (synthea_processor.py lines
242-273). -/
def get_patient_medications (patient_id : String) (medications_df : List MedRow) :
    List SynMedication :=
  ((medications_df.filter (fun m => m.PATIENT == patient_id)).foldl syn_med_step [])

/-- One row of Synthea encounters.csv with the columns the processor reads. -/
structure EncRow where
  PATIENT : String
  ENCOUNTERCLASS : Option String
  TOTAL_CLAIM_COST : Option Rat

/-- One row of Synthea observations.csv with the columns the processor
reads. -/
structure ObsRow where
  PATIENT : String
  CODE : Option String
  VALUE : Option String
  UNITS : Option String
  DATE : Option String

/-- SyntheaDataProcessor._get_patient_encounters (synthea_processor.py lines
275-281). -/
def get_patient_encounters (patient_id : String) (encounters_df : List EncRow) :
    List EncRow :=
  encounters_df.filter (fun e => e.PATIENT == patient_id)

/-- SyntheaDataProcessor._get_patient_observations (synthea_processor.py lines
283-289). -/
def get_patient_observations (patient_id : String) (observations_df : List ObsRow) :
    List ObsRow :=
  observations_df.filter (fun o => o.PATIENT == patient_id)

/-- SyntheaDataProcessor._summarize_encounters (synthea_processor.py lines
341-359): empty input gives zero counts; otherwise per-class counts (class
defaulting to "unknown"), total cost, and mean cost. -/
def summarize_encounters (encounters : List EncRow) : DVal :=
  if encounters.isEmpty then
    DVal.obj [("total_encounters", DVal.int 0), ("encounter_types", DVal.obj [])]
  else
    let total_cost : Rat := (encounters.map (fun e => e.TOTAL_CLAIM_COST.getD 0)).sum
    DVal.obj
      [("total_encounters", DVal.int encounters.length),
       ("encounter_types",
        DVal.obj ((valueCounts (encounters.map (fun e => e.ENCOUNTERCLASS.getD "unknown"))).map
          (fun kv => (kv.1, DVal.int kv.2)))),
       ("total_healthcare_cost", DVal.rat total_cost),
       ("avg_cost_per_encounter", DVal.rat (total_cost / (encounters.length : Rat)))]

/-- LOINC code to vital-sign name table
(_extract_vital_signs, synthea_processor.py lines 363-371). -/
def vital_codes : List (String × String) :=
  [("8462-4", "diastolic_bp"), ("8480-6", "systolic_bp"), ("8867-4", "heart_rate"),
   ("8310-5", "body_temperature"), ("8302-2", "height"), ("29463-7", "weight"),
   ("39156-5", "bmi")]

/-- SyntheaDataProcessor._extract_vital_signs (synthea_processor.py lines
361-384): keep observations whose CODE is in the vital-code table. -/
def extract_vital_signs (observations : List ObsRow) : List DVal :=
  observations.foldl
    (fun acc obs =>
      match obs.CODE with
      | none => acc
      | some code =>
        match vital_codes.lookup code with
        | none => acc
        | some ty =>
          acc ++ [DVal.obj [("type", DVal.str ty), ("value", optStr obs.VALUE),
                            ("unit", optStr obs.UNITS), ("date", optStr obs.DATE)]])
    []

/-- LOINC code to lab-test name table
(_extract_lab_results, synthea_processor.py lines 388-394). -/
def lab_codes : List (String × String) :=
  [("33747-0", "hemoglobin_a1c"), ("2339-0", "glucose"), ("2093-3", "cholesterol_total"),
   ("18262-6", "cholesterol_ldl"), ("2085-9", "cholesterol_hdl")]

/-- SyntheaDataProcessor._extract_lab_results (synthea_processor.py lines
386-407): keep observations whose CODE is in the lab-code table. -/
def extract_lab_results (observations : List ObsRow) : List DVal :=
  observations.foldl
    (fun acc obs =>
      match obs.CODE with
      | none => acc
      | some code =>
        match lab_codes.lookup code with
        | none => acc
        | some test_name =>
          acc ++ [DVal.obj [("test_name", DVal.str test_name), ("value", optStr obs.VALUE),
                            ("unit", optStr obs.UNITS), ("date", optStr obs.DATE)]])
    []

/-- SyntheaDataProcessor._calculate_utilization (synthea_processor.py lines
409-435): 3 points per inpatient, 2 per emergency, 1 per ambulatory encounter;
level "high" above 10, "medium" above 5, else "low". -/
def calculate_utilization (encounters : List EncRow) : DVal :=
  if encounters.isEmpty then
    DVal.obj [("utilization_score", DVal.int 0), ("risk_level", DVal.str "low")]
  else
    let inpatient := (encounters.filter (fun e => e.ENCOUNTERCLASS == some "inpatient")).length
    let emergency := (encounters.filter (fun e => e.ENCOUNTERCLASS == some "emergency")).length
    let outpatient := (encounters.filter (fun e => e.ENCOUNTERCLASS == some "ambulatory")).length
    let utilization_score := inpatient * 3 + emergency * 2 + outpatient * 1
    let risk_level :=
      if utilization_score > 10 then "high"
      else if utilization_score > 5 then "medium"
      else "low"
    DVal.obj
      [("utilization_score", DVal.int utilization_score),
       ("risk_level", DVal.str risk_level),
       ("inpatient_visits", DVal.int inpatient),
       ("emergency_visits", DVal.int emergency),
       ("outpatient_visits", DVal.int outpatient)]

/-- One row of Synthea patients.csv with the columns the processors read.
BIRTHDATE is the raw text (parsed on demand via the quantified date parser,
modelling pd.to_datetime on a well-formed date); PFX models the PREFIX
column. -/
structure SyntheaRow where
  Id : String
  BIRTHDATE : String
  DEATHDATE : Option String
  SSN : Option String
  DRIVERS : Option String
  PASSPORT : Option String
  PFX : Option String
  FIRST : Option String
  LAST : Option String
  SUFFIX : Option String
  MAIDEN : Option String
  MARITAL : Option String
  RACE : Option String
  ETHNICITY : Option String
  GENDER : Option String
  BIRTHPLACE : Option String
  ADDRESS : Option String
  CITY : Option String
  STATE : Option String
  COUNTY : Option String
  ZIP : Option String
  LAT : Option Rat
  LON : Option Rat
  HEALTHCARE_EXPENSES : Option Rat
  HEALTHCARE_COVERAGE : Option Rat
  INCOME : Option Rat

/-- SyntheaDataProcessor._categorize_income (synthea_processor.py lines
448-455). -/
def categorize_income (income : Rat) : String :=
  if income > 75000 then "high"
  else if income > 40000 then "medium"
  else "low"

/-- SyntheaDataProcessor._assess_geographic_access (synthea_processor.py lines
457-460): constant "adequate". -/
def assess_geographic_access (zip_code : Option String) : String :=
  "adequate"

/-- SyntheaDataProcessor._extract_social_determinants (synthea_processor.py
lines 437-446). -/
def extract_social_determinants (patient : SyntheaRow) : DVal :=
  DVal.obj
    [("income_level", DVal.str (categorize_income (patient.INCOME.getD 0))),
     ("education_level", DVal.str "Unknown"),
     ("employment_status", DVal.str "Unknown"),
     ("housing_status", DVal.str "Stable"),
     ("insurance_status",
      DVal.str (if patient.HEALTHCARE_COVERAGE.getD 0 > 0 then "Insured" else "Uninsured")),
     ("geographic_access", DVal.str (assess_geographic_access patient.ZIP))]

/-- SyntheaDataProcessor._process_synthea_demographics (synthea_processor.py
lines 171-210). -/
def process_synthea_demographics (anonymize : Bool) (patient : SyntheaRow)
    (age : Int) : DVal :=
  DVal.obj
    [("age", DVal.int age),
     ("birth_date", DVal.str patient.BIRTHDATE),
     ("death_date", optStr patient.DEATHDATE),
     ("is_deceased", DVal.bool patient.DEATHDATE.isSome),
     ("ssn", if anonymize then DVal.null else optStr patient.SSN),
     ("drivers_license", if anonymize then DVal.null else optStr patient.DRIVERS),
     ("passport", if anonymize then DVal.null else optStr patient.PASSPORT),
     ("name", DVal.obj
       [("prefix", optStr patient.PFX), ("first", optStr patient.FIRST),
        ("last", optStr patient.LAST), ("suffix", optStr patient.SUFFIX),
        ("maiden", optStr patient.MAIDEN)]),
     ("personal", DVal.obj
       [("marital_status", optStr patient.MARITAL), ("gender", optStr patient.GENDER),
        ("race", optStr patient.RACE), ("ethnicity", optStr patient.ETHNICITY),
        ("language", DVal.str "English")]),
     ("location", DVal.obj
       [("birthplace", optStr patient.BIRTHPLACE), ("address", optStr patient.ADDRESS),
        ("city", optStr patient.CITY), ("state", optStr patient.STATE),
        ("county", optStr patient.COUNTY), ("zip", optStr patient.ZIP),
        ("latitude", optRat patient.LAT), ("longitude", optRat patient.LON)]),
     ("financial", DVal.obj
       [("healthcare_expenses", optRat patient.HEALTHCARE_EXPENSES),
        ("healthcare_coverage", optRat patient.HEALTHCARE_COVERAGE),
        ("income", optRat patient.INCOME)])]

/-- SyntheaDataProcessor._generate_synthea_summary (synthea_processor.py lines
549-571). -/
def generate_synthea_summary (patient : SyntheaRow) (age : Int)
    (conditions : List SynCondition) : String :=
  let name := patient.FIRST.getD "" ++ " " ++ patient.LAST.getD ""
  let gender := py_lower (patient.GENDER.getD "unknown gender")
  if conditions.isEmpty then
    name ++ " - " ++ toString age ++ "-year-old " ++ gender
         ++ " patient with no recorded conditions"
  else
    let active_conditions := conditions.filter (fun c => c.status == "active")
    if !active_conditions.isEmpty then
      let condition_names := (active_conditions.take 3).map (fun c => c.description)
      let condition_text := String.intercalate ", " condition_names
      let summary := name ++ " - " ++ toString age ++ "-year-old " ++ gender
                     ++ " with " ++ condition_text
      if active_conditions.length > 3 then
        summary ++ " and " ++ toString (active_conditions.length - 3)
                ++ " additional active condition(s)"
      else summary
    else
      let resolved_conditions := (conditions.take 2).map (fun c => c.description)
      name ++ " - " ++ toString age ++ "-year-old " ++ gender
           ++ " with history of " ++ String.intercalate ", " resolved_conditions

/-- SyntheaDataProcessor._assess_data_completeness (synthea_processor.py lines
573-588): 100 minus 10 per missing required column, floored at 0. BIRTHDATE is
present by construction on rows that reached assembly (its parse already
succeeded). -/
def assess_data_completeness (patient : SyntheaRow) (conditions : List SynCondition)
    (medications : List SynMedication) : DVal :=
  let checks : List (String × Bool) :=
    [("BIRTHDATE", false), ("GENDER", patient.GENDER.isNone),
     ("RACE", patient.RACE.isNone), ("ETHNICITY", patient.ETHNICITY.isNone),
     ("FIRST", patient.FIRST.isNone), ("LAST", patient.LAST.isNone)]
  let missing_fields := (checks.filter (fun c => c.2)).map (fun c => c.1)
  DVal.obj
    [("completeness_score",
      DVal.rat (max ((100 : Rat) - (missing_fields.length : Rat) * 10) 0)),
     ("missing_fields", DVal.list (missing_fields.map DVal.str)),
     ("has_conditions", DVal.bool (conditions.length > 0)),
     ("has_medications", DVal.bool (medications.length > 0))]

/-- A Synthea condition dict as a document value. -/
def synCondToDVal (c : SynCondition) : DVal :=
  DVal.obj
    [("id", DVal.str c.id), ("snomed_code", DVal.str c.snomed_code),
     ("icd10_code", DVal.str c.icd10_code), ("code_system", DVal.str c.code_system),
     ("description", DVal.str c.description), ("start_date", optStr c.start_date),
     ("stop_date", optStr c.stop_date), ("status", DVal.str c.status),
     ("encounter_id", optStr c.encounter_id), ("severity", DVal.str c.severity),
     ("category", DVal.str c.category)]

/-- A Synthea medication dict as a document value. -/
def synMedToDVal (m : SynMedication) : DVal :=
  DVal.obj
    [("id", DVal.str m.id), ("code", optStr m.code), ("name", DVal.str m.name),
     ("description", DVal.str m.description), ("start_date", optStr m.start_date),
     ("stop_date", optStr m.stop_date), ("status", DVal.str m.status),
     ("encounter_id", optStr m.encounter_id), ("dispenses", DVal.rat m.dispenses),
     ("total_cost", DVal.rat m.total_cost), ("payer_coverage", DVal.rat m.payer_coverage),
     ("medication_class", DVal.str m.medication_class), ("route", DVal.str m.route),
     ("frequency", DVal.str m.frequency)]

/-- The risk-profile dict as a document value
(_assess_risk_profile return, synthea_processor.py lines 492-496). -/
def riskProfileToDVal (r : RiskProfile) : DVal :=
  DVal.obj
    [("overall_risk_score", DVal.int r.overall_risk_score),
     ("risk_level", DVal.str r.risk_level),
     ("risk_factors", DVal.list (r.risk_factors.map DVal.str))]

/-- The age computation inside _process_synthea_patient (synthea_processor.py
lines 136-139): death date when present else today's date, minus the birth
date, in days, floor-divided by 365. No validation is applied to the result. -/
def synthea_age (birthdate : Int) (deathdate : Option Int) (today : Int) : Int :=
  Int.fdiv ((deathdate.getD today) - birthdate) 365

/-- SyntheaDataProcessor._process_synthea_patient (synthea_processor.py lines
123-169): assembles the full patient document unconditionally — there is no
age (or other) validation gate and no None-returning branch. `parse_date`
models pd.to_datetime on a parseable date text (an unparseable date raises
instead, which the per-record loop catches). -/
def process_synthea_patient (parse_date : String → Int) (anonymize : Bool)
    (today : Int) (now_iso : String) (patient : SyntheaRow)
    (conditions_df : List CondRow) (medications_df : List MedRow)
    (encounters_df : List EncRow) (observations_df : List ObsRow) : Option Doc :=
  let patient_id := patient.Id
  let age := synthea_age (parse_date patient.BIRTHDATE)
    (patient.DEATHDATE.map parse_date) today
  let patient_conditions := get_patient_conditions patient_id conditions_df
  let patient_medications := get_patient_medications patient_id medications_df
  let patient_encounters := get_patient_encounters patient_id encounters_df
  let patient_observations := get_patient_observations patient_id observations_df
  some
    [("id", DVal.str ("synthea_patient_" ++ patient_id)),
     ("synthea_id", DVal.str patient_id),
     ("demographics", process_synthea_demographics anonymize patient age),
     ("conditions", DVal.list (patient_conditions.map synCondToDVal)),
     ("medications", DVal.list (patient_medications.map synMedToDVal)),
     ("encounters_summary", summarize_encounters patient_encounters),
     ("vital_signs", DVal.list (extract_vital_signs patient_observations)),
     ("lab_results", DVal.list (extract_lab_results patient_observations)),
     ("healthcare_utilization", calculate_utilization patient_encounters),
     ("social_determinants", extract_social_determinants patient),
     ("risk_profile", riskProfileToDVal
       (assess_risk_profile patient_conditions age patient.GENDER)),
     ("care_gaps", DVal.list
       ((identify_care_gaps patient_conditions patient_medications).map DVal.str)),
     ("type", DVal.str "patient"),
     ("source", DVal.str "Synthea"),
     ("timestamp", DVal.str now_iso),
     ("title", DVal.str ("Patient " ++ patient.FIRST.getD "" ++ " "
                         ++ patient.LAST.getD "" ++ " - " ++ toString age ++ "yr "
                         ++ patient.GENDER.getD "Unknown")),
     ("summary", DVal.str (generate_synthea_summary patient age patient_conditions)),
     ("data_completeness",
      assess_data_completeness patient patient_conditions patient_medications)]

/-- One row of PATIENTS.csv as read by the basic MIMICProcessor
(process_data.py lines 134-158); DOB and DOD already as ISO strings of the
parsed dates, none when absent/NaN. -/
structure BasicMimicPatientRow where
  SUBJECT_ID : Nat
  GENDER : Option String
  DOB : Option String
  DOD : Option String

/-- One row of ADMISSIONS.csv as read by the basic MIMICProcessor (only
SUBJECT_ID is consulted). -/
structure BasicAdmRow where
  SUBJECT_ID : Nat

/-- Per-row body of MIMICProcessor.process_patients (process_data.py lines
134-160): the basic patient document; every row yields a document. -/
def mimic_basic_patient_doc (now_iso : String) (patient : BasicMimicPatientRow)
    (admissions_df : List BasicAdmRow) : Doc :=
  let patient_admissions := admissions_df.filter (fun a => a.SUBJECT_ID == patient.SUBJECT_ID)
  [("id", DVal.str ("patient_" ++ toString patient.SUBJECT_ID)),
   ("subject_id", DVal.int patient.SUBJECT_ID),
   ("demographics", DVal.obj
     [("gender", DVal.str (patient.GENDER.getD "Unknown")),
      ("date_of_birth", optStr patient.DOB),
      ("date_of_death", optStr patient.DOD)]),
   ("admissions_count", DVal.int patient_admissions.length),
   ("type", DVal.str "patient"),
   ("source", DVal.str "MIMIC-III"),
   ("timestamp", DVal.str now_iso),
   ("title", DVal.str ("Patient " ++ toString patient.SUBJECT_ID ++ " - "
                       ++ patient.GENDER.getD "Unknown")),
   ("summary", DVal.str ("MIMIC-III patient record with "
                         ++ toString patient_admissions.length ++ " admission(s)"))]

/-- One row of NOTEEVENTS.csv with the columns the processor reads; CHARTDATE
as the ISO string of the parsed date. -/
structure NoteRow where
  ROW_ID : Nat
  SUBJECT_ID : Nat
  HADM_ID : Option Nat
  CATEGORY : Option String
  DESCRIPTION : Option String
  TEXT : Option String
  CHARTDATE : Option String

/-- Per-row body of MIMICProcessor.process_clinical_notes (process_data.py
lines 177-197): rows whose TEXT is missing or strips to empty are skipped;
otherwise the clinical-note document (content capped at 5000 characters,
summary at 200 plus an ellipsis). -/
def process_clinical_note (now_iso : String) (note : NoteRow) : Option Doc :=
  if note.TEXT.isNone || py_strip ((note.TEXT).getD "") = "" then none
  else
    let text := (note.TEXT).getD ""
    some
      [("id", DVal.str ("note_" ++ toString note.ROW_ID)),
       ("patient_id", DVal.str ("patient_" ++ toString note.SUBJECT_ID)),
       ("admission_id", match note.HADM_ID with
                        | some h => DVal.str ("admission_" ++ toString h)
                        | none => DVal.null),
       ("category", DVal.str (note.CATEGORY.getD "Unknown")),
       ("description", DVal.str (note.DESCRIPTION.getD "")),
       ("content", DVal.str (py_take text 5000)),
       ("chart_date", optStr note.CHARTDATE),
       ("type", DVal.str "clinical-note"),
       ("source", DVal.str "MIMIC-III"),
       ("timestamp", DVal.str now_iso),
       ("title", DVal.str (note.CATEGORY.getD "Clinical Note" ++ " - "
                           ++ note.DESCRIPTION.getD "Unknown")),
       ("summary", DVal.str (if py_len text > 200 then py_take text 200 ++ "..." else text))]

/-- Per-row body of MIMICProcessor.process_lab_events (process_data.py lines
221-246): rows with a missing VALUE are skipped; otherwise the basic
lab-result document. -/
def process_lab_event (now_iso : String) (lab_items : List (Nat × String))
    (lab : LabRow) : Option Doc :=
  match lab.VALUE with
  | none => none
  | some value =>
    let lab_name := (lab_items.lookup lab.ITEMID).getD ("Lab Item " ++ toString lab.ITEMID)
    some
      [("id", DVal.str ("lab_" ++ toString lab.ROW_ID)),
       ("patient_id", DVal.str ("patient_" ++ toString lab.SUBJECT_ID)),
       ("admission_id", match lab.HADM_ID with
                        | some h => DVal.str ("admission_" ++ toString h)
                        | none => DVal.null),
       ("item_id", DVal.int lab.ITEMID),
       ("test_name", DVal.str lab_name),
       ("value", DVal.str value),
       ("value_num", optRat lab.VALUENUM),
       ("unit", DVal.str (lab.VALUEUOM.getD "")),
       ("flag", DVal.str (lab.FLAG.getD "")),
       ("chart_time", optStr lab.CHARTTIME),
       ("type", DVal.str "lab-result"),
       ("source", DVal.str "MIMIC-III"),
       ("timestamp", DVal.str now_iso),
       ("title", DVal.str (lab_name ++ " - " ++ value)),
       ("summary", DVal.str ("Lab result: " ++ lab_name ++ " = " ++ value ++ " "
                             ++ lab.VALUEUOM.getD ""))]

/-- Per-row body of SyntheaProcessor.process_patients (process_data.py lines
269-304): the basic flat Synthea patient document; every row yields a
document. -/
def synthea_basic_patient_doc (now_iso : String) (patient : SyntheaRow) : Doc :=
  [("id", DVal.str ("synthea_patient_" ++ patient.Id)),
   ("synthea_id", DVal.str patient.Id),
   ("demographics", DVal.obj
     [("birth_date", DVal.str patient.BIRTHDATE),
      ("death_date", optStr patient.DEATHDATE),
      ("ssn", optStr patient.SSN),
      ("drivers", optStr patient.DRIVERS),
      ("passport", optStr patient.PASSPORT),
      ("prefix", optStr patient.PFX),
      ("first_name", optStr patient.FIRST),
      ("last_name", optStr patient.LAST),
      ("suffix", optStr patient.SUFFIX),
      ("maiden", optStr patient.MAIDEN),
      ("marital_status", optStr patient.MARITAL),
      ("race", optStr patient.RACE),
      ("ethnicity", optStr patient.ETHNICITY),
      ("gender", optStr patient.GENDER),
      ("birth_place", optStr patient.BIRTHPLACE),
      ("address", optStr patient.ADDRESS),
      ("city", optStr patient.CITY),
      ("state", optStr patient.STATE),
      ("county", optStr patient.COUNTY),
      ("zip", optStr patient.ZIP)]),
   ("healthcare_expenses", optRat patient.HEALTHCARE_EXPENSES),
   ("healthcare_coverage", optRat patient.HEALTHCARE_COVERAGE),
   ("type", DVal.str "patient"),
   ("source", DVal.str "Synthea"),
   ("timestamp", DVal.str now_iso),
   ("title", DVal.str ("Patient " ++ patient.FIRST.getD "" ++ " "
                       ++ patient.LAST.getD "" ++ " - " ++ patient.GENDER.getD "Unknown")),
   ("summary", DVal.str ("Synthea synthetic patient - " ++ patient.RACE.getD "Unknown"
                         ++ " " ++ patient.GENDER.getD "Unknown"))]

/-- The per-record try/except loop shared by
MIMICDataProcessor.process_patients_enhanced (mimic_processor.py lines 60-70)
and SyntheaDataProcessor.process_synthea_patients (synthea_processor.py lines
93-110): `proc` derives and assembles one record and may raise (`Except.error`)
or return null. A raised exception increments the error counter and the loop
continues with the next record; a null result is silently skipped; a document
is yielded. The loop is total: it never aborts the run. -/
def process_records_loop {ρ δ : Type} (proc : ρ → Except String (Option δ)) :
    List ρ → List δ × Nat
  | [] => ([], 0)
  | row :: rest =>
    match proc row with
    | Except.error _ =>
      let acc := process_records_loop proc rest
      (acc.1, acc.2 + 1)
    | Except.ok none => process_records_loop proc rest
    | Except.ok (some d) =>
      let acc := process_records_loop proc rest
      (d :: acc.1, acc.2)

/-- Top-level shape shared by the four process_data.py readers
(MIMICProcessor.process_patients lines 120-163, process_clinical_notes lines
165-200, process_lab_events lines 202-249, SyntheaProcessor.process_patients
lines 258-307): a missing primary file yields nothing; the whole read plus
per-row loop sits in one try whose except clause only logs, so an exception
while opening or reading the top-level file ends the generator, which thus
behaves as an empty sequence and never re-raises. `mk` is the per-row document
builder (none = row skipped). -/
def basic_reader_run {ρ δ : Type} (file_found : Bool)
    (read_result : Except String (List ρ)) (mk : ρ → Option δ) : List δ :=
  if !file_found then []
  else
    match read_result with
    | Except.error _ => []
    | Except.ok rows => rows.filterMap mk

/-- Top-level shape shared by MIMICDataProcessor.process_patients_enhanced
(mimic_processor.py lines 45-74) and
SyntheaDataProcessor.process_synthea_patients (synthea_processor.py lines
74-114): a missing primary file yields nothing; the outer except clause logs
and RE-RAISES, so an exception while opening or reading the top-level files
escapes the generator to its consumer. -/
def enhanced_reader_run {ρ δ : Type} (file_found : Bool)
    (read_result : Except String (List ρ)) (proc : ρ → Except String (Option δ)) :
    Except String (List δ × Nat) :=
  if !file_found then Except.ok ([], 0)
  else
    match read_result with
    | Except.error e => Except.error e
    | Except.ok rows => Except.ok (process_records_loop proc rows)

/-- The batching sink loop of main (process_data.py lines 363-373, one copy
per document stream, with bulk_index in ElasticsearchConnector lines 89-111):
each produced document is appended to the batch; when the batch length reaches
the configured batch size, the whole batch is handed to bulk_index — whose
boolean success/failure result is ignored — and the batch is cleared; after
the stream ends a non-empty remaining batch is flushed once. The result is the
sequence of batches handed to bulk_index, in order. -/
def sink_flushes {δ : Type} (batch_size : Nat) : List δ → List δ → List (List δ)
  | [], batch => if batch.isEmpty then [] else [batch]
  | d :: rest, batch =>
    let batch := batch ++ [d]
    if batch.length ≥ batch_size then batch :: sink_flushes batch_size rest []
    else sink_flushes batch_size rest batch

/-- C2 counterexample: the claim's single severe-term set
{"severe","acute","crisis","emergency","end stage"} matches neither
classifier. "Hypertensive crisis" contains "crisis" yet the MIMIC classifier
returns "mild"; "End stage renal disease" contains "end stage" yet the Synthea
classifier returns "mild". -/
theorem C2_counterexample :
    determine_severity "Hypertensive crisis" = "mild" ∧
    determine_condition_severity "End stage renal disease" = "mild" := by
  exact ⟨by decide, by decide⟩

/-- C2 (amended): each classifier checks its own severe-term set first —
MIMIC's _determine_severity uses {"end stage","severe","acute"}, Synthea's
_determine_condition_severity uses {"severe","acute","crisis","emergency"} —
then the shared moderate terms {"chronic","moderate"}, else "mild"; severe
terms win, so a description containing both "chronic" and "severe" classifies
as "severe" under both. -/
theorem C2_severity_classification (description : String) :
    (determine_severity description = "severe" ↔
      (["end stage", "severe", "acute"].any
        (fun term => pyContains (py_lower description) term)) = true) ∧
    (determine_severity description = "moderate" ↔
      (["end stage", "severe", "acute"].any
        (fun term => pyContains (py_lower description) term)) = false ∧
      (["chronic", "moderate"].any
        (fun term => pyContains (py_lower description) term)) = true) ∧
    (determine_severity description = "mild" ↔
      (["end stage", "severe", "acute"].any
        (fun term => pyContains (py_lower description) term)) = false ∧
      (["chronic", "moderate"].any
        (fun term => pyContains (py_lower description) term)) = false) ∧
    (determine_condition_severity description = "severe" ↔
      (["severe", "acute", "crisis", "emergency"].any
        (fun term => pyContains (py_lower description) term)) = true) ∧
    (determine_condition_severity description = "moderate" ↔
      (["severe", "acute", "crisis", "emergency"].any
        (fun term => pyContains (py_lower description) term)) = false ∧
      (["moderate", "chronic"].any
        (fun term => pyContains (py_lower description) term)) = true) ∧
    (determine_condition_severity description = "mild" ↔
      (["severe", "acute", "crisis", "emergency"].any
        (fun term => pyContains (py_lower description) term)) = false ∧
      (["moderate", "chronic"].any
        (fun term => pyContains (py_lower description) term)) = false) ∧
    (pyContains (py_lower description) "severe" = true →
      determine_severity description = "severe" ∧
      determine_condition_severity description = "severe") := by
  have hs : pyContains (py_lower description) "severe" = true →
      (["end stage", "severe", "acute"].any
        (fun term => pyContains (py_lower description) term)) = true ∧
      (["severe", "acute", "crisis", "emergency"].any
        (fun term => pyContains (py_lower description) term)) = true := by
    intro h
    exact ⟨by simp [List.any_cons, h], by simp [List.any_cons, h]⟩
  refine ⟨?_, ?_, ?_, ?_, ?_, ?_, ?_⟩
  case _ =>
    cases h1 : (["end stage", "severe", "acute"].any
        (fun term => pyContains (py_lower description) term)) <;>
      cases h2 : (["chronic", "moderate"].any
        (fun term => pyContains (py_lower description) term)) <;>
      simp [determine_severity, h1, h2]
  case _ =>
    cases h1 : (["end stage", "severe", "acute"].any
        (fun term => pyContains (py_lower description) term)) <;>
      cases h2 : (["chronic", "moderate"].any
        (fun term => pyContains (py_lower description) term)) <;>
      simp [determine_severity, h1, h2]
  case _ =>
    cases h1 : (["end stage", "severe", "acute"].any
        (fun term => pyContains (py_lower description) term)) <;>
      cases h2 : (["chronic", "moderate"].any
        (fun term => pyContains (py_lower description) term)) <;>
      simp [determine_severity, h1, h2]
  case _ =>
    cases h3 : (["severe", "acute", "crisis", "emergency"].any
        (fun term => pyContains (py_lower description) term)) <;>
      cases h4 : (["moderate", "chronic"].any
        (fun term => pyContains (py_lower description) term)) <;>
      simp [determine_condition_severity, h3, h4]
  case _ =>
    cases h3 : (["severe", "acute", "crisis", "emergency"].any
        (fun term => pyContains (py_lower description) term)) <;>
      cases h4 : (["moderate", "chronic"].any
        (fun term => pyContains (py_lower description) term)) <;>
      simp [determine_condition_severity, h3, h4]
  case _ =>
    cases h3 : (["severe", "acute", "crisis", "emergency"].any
        (fun term => pyContains (py_lower description) term)) <;>
      cases h4 : (["moderate", "chronic"].any
        (fun term => pyContains (py_lower description) term)) <;>
      simp [determine_condition_severity, h3, h4]
  case _ =>
    intro h
    obtain ⟨ha, hb⟩ := hs h
    exact ⟨by simp [determine_severity, ha], by simp [determine_condition_severity, hb]⟩

/-- C2 witness: "chronic severe pain" contains "severe", and both classifiers
return "severe" on it, via the precedence clause of the amended theorem. -/
theorem C2_severity_classification_witness :
    pyContains (py_lower "chronic severe pain") "severe" = true ∧
    determine_severity "chronic severe pain" = "severe" ∧
    determine_condition_severity "chronic severe pain" = "severe" :=
  ⟨by decide,
   ((C2_severity_classification "chronic severe pain").2.2.2.2.2.2 (by decide)).1,
   ((C2_severity_classification "chronic severe pain").2.2.2.2.2.2 (by decide)).2⟩

/-- C6 counterexample: without anonymization the generated id is "patient_"
followed by the subject id — it does not carry the anonymized-path prefix
"pat_" named by the claim. The digest function is irrelevant on this branch
(instantiated with the identity). -/
theorem C6_counterexample :
    mimic_patient_id (fun s => s) false 123 = "patient_123" ∧
    ("patient_123" : String) ≠ "pat_" ++ "123" := by
  exact ⟨rfl, by decide⟩

/-- C6 (amended): the patient id is a pure (hence deterministic) function of
the digest function, the anonymization flag, and the subject id. With
anonymization it is "pat_" followed by the first 8 hex characters of the
digest of "patient_" ++ subject_id ++ "_mimic" (the natural key wrapped in the
fixed salt text "patient_"/"_mimic"); without anonymization it is "patient_"
followed by the subject id verbatim — prefix "patient_", not "pat_". -/
theorem C6_patient_id_generation (md5_hexdigest : String → String) (anonymize : Bool)
    (subject_id : Nat) :
    mimic_patient_id md5_hexdigest anonymize subject_id =
      mimic_patient_id md5_hexdigest anonymize subject_id ∧
    mimic_patient_id md5_hexdigest true subject_id =
      "pat_" ++ py_take (md5_hexdigest ("patient_" ++ toString subject_id ++ "_mimic")) 8 ∧
    mimic_patient_id md5_hexdigest false subject_id =
      "patient_" ++ toString subject_id := by
  exact ⟨rfl, rfl, rfl⟩

/-- Closed form of _identify_care_gaps: the two rules contribute their gap
labels independently, in order. -/
theorem identify_care_gaps_closed_form (conditions : List SynCondition)
    (medications : List SynMedication) :
    identify_care_gaps conditions medications =
      (if (conditions.any fun c => pyContains (py_lower c.description) "diabetes") &&
          !(medications.any fun m => pyContains (py_lower m.medication_class) "antidiabetic")
       then ["diabetes_without_medication"] else []) ++
      (if (conditions.any fun c => pyContains (py_lower c.description) "hypertension") &&
          !(medications.any fun m =>
            ["ACE Inhibitor", "Calcium Channel Blocker", "Beta Blocker"].contains
              m.medication_class)
       then ["hypertension_without_medication"] else []) := by
  simp only [identify_care_gaps]
  cases h1 : conditions.any (fun c => pyContains (py_lower c.description) "diabetes") <;>
    cases h2 : medications.any
      (fun m => pyContains (py_lower m.medication_class) "antidiabetic") <;>
    cases h3 : conditions.any (fun c => pyContains (py_lower c.description) "hypertension") <;>
    cases h4 : medications.any (fun m =>
      ["ACE Inhibitor", "Calcium Channel Blocker", "Beta Blocker"].contains
        m.medication_class) <;>
    rfl

/-- C7: "diabetes_without_medication" is flagged exactly when some condition
description contains "diabetes" (case-insensitive) and no medication class
contains "antidiabetic"; "hypertension_without_medication" exactly when some
condition description contains "hypertension" and no medication class is in
the fixed antihypertensive set; and the spec's concrete example: a sole
"Type 2 diabetes mellitus" condition with no medications yields the diabetes
gap, and a medication of class "Antidiabetic" removes it. -/
theorem C7_care_gaps (conditions : List SynCondition) (medications : List SynMedication) :
    ("diabetes_without_medication" ∈ identify_care_gaps conditions medications ↔
      conditions.any (fun c => pyContains (py_lower c.description) "diabetes") = true ∧
      medications.any (fun m => pyContains (py_lower m.medication_class) "antidiabetic")
        = false) ∧
    ("hypertension_without_medication" ∈ identify_care_gaps conditions medications ↔
      conditions.any (fun c => pyContains (py_lower c.description) "hypertension") = true ∧
      medications.any (fun m =>
        ["ACE Inhibitor", "Calcium Channel Blocker", "Beta Blocker"].contains
          m.medication_class) = false) ∧
    "diabetes_without_medication" ∈ identify_care_gaps
      [⟨"condition_1", "44054006", "E11.9", "SNOMED-CT", "Type 2 diabetes mellitus",
        none, none, "active", none, "moderate", "endocrine"⟩] [] ∧
    "diabetes_without_medication" ∉ identify_care_gaps
      [⟨"condition_1", "44054006", "E11.9", "SNOMED-CT", "Type 2 diabetes mellitus",
        none, none, "active", none, "moderate", "endocrine"⟩]
      [⟨"medication_1", none, "Metformin", "Metformin 500 MG Oral Tablet", none, none,
        "active", none, 0, 0, 0, "Antidiabetic", "oral", "as directed"⟩] := by
  rw [identify_care_gaps_closed_form, identify_care_gaps_closed_form]
  refine ⟨?_, ?_, by decide, by decide⟩
  · cases h1 : conditions.any (fun c => pyContains (py_lower c.description) "diabetes") <;>
      cases h2 : medications.any
        (fun m => pyContains (py_lower m.medication_class) "antidiabetic") <;>
      cases h3 : conditions.any (fun c => pyContains (py_lower c.description) "hypertension") <;>
      cases h4 : medications.any (fun m =>
        ["ACE Inhibitor", "Calcium Channel Blocker", "Beta Blocker"].contains
          m.medication_class) <;>
      simp
  · cases h1 : conditions.any (fun c => pyContains (py_lower c.description) "diabetes") <;>
      cases h2 : medications.any
        (fun m => pyContains (py_lower m.medication_class) "antidiabetic") <;>
      cases h3 : conditions.any (fun c => pyContains (py_lower c.description) "hypertension") <;>
      cases h4 : medications.any (fun m =>
        ["ACE Inhibitor", "Calcium Channel Blocker", "Beta Blocker"].contains
          m.medication_class) <;>
      simp

/-- The risk-score fold adds one point and one factor per high-risk
condition. -/
theorem foldl_risk_cond_step (conditions : List SynCondition) :
    ∀ (s : Nat) (f : List String),
      conditions.foldl risk_cond_step (s, f) =
        (s + conditions.countP isHighRiskCond,
         f ++ (conditions.filter isHighRiskCond).map (fun c => c.description)) := by
  induction conditions with
  | nil => intro s f; simp
  | cons c rest ih =>
    intro s f
    by_cases h : isHighRiskCond c
    · rw [List.foldl_cons]
      simp only [risk_cond_step, h, if_true]
      rw [ih]
      simp [List.countP_cons, h, List.filter_cons]
      omega
    · rw [List.foldl_cons]
      simp only [risk_cond_step, h, if_false]
      rw [ih]
      simp [List.countP_cons, h, List.filter_cons]

/-- C8: the risk score is the age baseline (2 for age > 65, 1 for age in
(45,65], else 0) plus the number of conditions whose lower-cased description
contains a high-risk keyword; the factors are the age factor followed by each
matching condition's description; the level is "high" at score ≥ 4, "medium"
at score ≥ 2, else "low". -/
theorem C8_risk_profile (conditions : List SynCondition) (age : Int)
    (gender : Option String) :
    (assess_risk_profile conditions age gender).overall_risk_score =
      (if 65 < age then 2 else if 45 < age ∧ age ≤ 65 then 1 else 0)
        + conditions.countP isHighRiskCond ∧
    (assess_risk_profile conditions age gender).risk_factors =
      (if 65 < age then ["advanced_age"]
       else if 45 < age ∧ age ≤ 65 then ["middle_age"] else [])
        ++ (conditions.filter isHighRiskCond).map (fun c => c.description) ∧
    (assess_risk_profile conditions age gender).risk_level =
      (if 4 ≤ (assess_risk_profile conditions age gender).overall_risk_score then "high"
       else if 2 ≤ (assess_risk_profile conditions age gender).overall_risk_score then
         "medium"
       else "low") := by
  by_cases h65 : 65 < age
  · simp [assess_risk_profile, h65, foldl_risk_cond_step]
  · by_cases h45 : 45 < age
    · have hle : age ≤ 65 := by omega
      simp [assess_risk_profile, h65, h45, hle, foldl_risk_cond_step]
    · simp [assess_risk_profile, h65, h45, foldl_risk_cond_step]

/-- C10: care-gap detection reads only condition descriptions and medication
classes — a "resolved" condition (stop date present) flags its gap exactly as
an active one does, and rewriting every condition's status leaves the gap list
unchanged. -/
theorem C10_care_gaps_ignore_status :
    (∀ (c : SynCondition) (conditions : List SynCondition)
        (medications : List SynMedication),
      pyContains (py_lower c.description) "diabetes" = true →
      c.status = "resolved" →
      medications.any (fun m => pyContains (py_lower m.medication_class) "antidiabetic")
        = false →
      "diabetes_without_medication" ∈ identify_care_gaps (c :: conditions) medications) ∧
    (∀ (c : SynCondition) (conditions : List SynCondition)
        (medications : List SynMedication),
      pyContains (py_lower c.description) "hypertension" = true →
      c.status = "resolved" →
      medications.any (fun m =>
        ["ACE Inhibitor", "Calcium Channel Blocker", "Beta Blocker"].contains
          m.medication_class) = false →
      "hypertension_without_medication" ∈ identify_care_gaps (c :: conditions) medications) ∧
    (∀ (conditions : List SynCondition) (medications : List SynMedication) (st : String),
      identify_care_gaps (conditions.map (fun c => { c with status := st })) medications =
        identify_care_gaps conditions medications) := by
  refine ⟨?_, ?_, ?_⟩
  · intro c conditions medications hdesc _hstatus hmed
    rw [identify_care_gaps_closed_form]
    have hany : ((c :: conditions).any
        fun x => pyContains (py_lower x.description) "diabetes") = true := by
      simp [List.any_cons, hdesc]
    rw [hany, hmed]
    simp
  · intro c conditions medications hdesc _hstatus hmed
    rw [identify_care_gaps_closed_form]
    have hany : ((c :: conditions).any
        fun x => pyContains (py_lower x.description) "hypertension") = true := by
      simp [List.any_cons, hdesc]
    rw [hany, hmed]
    split <;> simp
  · intro conditions medications st
    rw [identify_care_gaps_closed_form, identify_care_gaps_closed_form]
    simp [List.any_map, Function.comp]

/-- C10 witness: a resolved "Type 2 diabetes mellitus" condition with no
medications still produces the diabetes gap. -/
theorem C10_care_gaps_ignore_status_witness :
    pyContains (py_lower "Type 2 diabetes mellitus") "diabetes" = true ∧
    (SynCondition.status ⟨"condition_1", "44054006", "E11.9", "SNOMED-CT",
      "Type 2 diabetes mellitus", some "2019-01-01", some "2020-01-01", "resolved",
      none, "moderate", "endocrine"⟩) = "resolved" ∧
    (([] : List SynMedication).any
      (fun m => pyContains (py_lower m.medication_class) "antidiabetic")) = false ∧
    "diabetes_without_medication" ∈ identify_care_gaps
      [⟨"condition_1", "44054006", "E11.9", "SNOMED-CT", "Type 2 diabetes mellitus",
        some "2019-01-01", some "2020-01-01", "resolved", none, "moderate", "endocrine"⟩]
      [] :=
  ⟨by decide, rfl, rfl,
   C10_care_gaps_ignore_status.1
     ⟨"condition_1", "44054006", "E11.9", "SNOMED-CT", "Type 2 diabetes mellitus",
      some "2019-01-01", some "2020-01-01", "resolved", none, "moderate", "endocrine"⟩
     [] [] (by decide) rfl rfl⟩

/-- C3: the per-record loop yields exactly the documents of the records whose
processing succeeds with a document, counts exactly the records whose
processing raises, and never aborts (it is total by construction); in
particular 10 records of which 1 raises and 9 produce documents yield 9
documents and an error count of 1. -/
theorem C3_per_record_isolation {ρ δ : Type} (proc : ρ → Except String (Option δ))
    (rows : List ρ) :
    (process_records_loop proc rows).1 = rows.filterMap (fun r =>
        match proc r with
        | Except.ok (some d) => some d
        | _ => none) ∧
    (process_records_loop proc rows).2 = rows.countP (fun r =>
        match proc r with
        | Except.error _ => true
        | _ => false) ∧
    (rows.length = 10 →
      rows.countP (fun r => match proc r with
        | Except.error _ => true
        | _ => false) = 1 →
      rows.countP (fun r => match proc r with
        | Except.ok (some _) => true
        | _ => false) = 9 →
      (process_records_loop proc rows).1.length = 9 ∧
      (process_records_loop proc rows).2 = 1) := by
  have main : ∀ l : List ρ,
      (process_records_loop proc l).1 = l.filterMap (fun r =>
        match proc r with
        | Except.ok (some d) => some d
        | _ => none) ∧
      (process_records_loop proc l).2 = l.countP (fun r =>
        match proc r with
        | Except.error _ => true
        | _ => false) ∧
      (process_records_loop proc l).1.length = l.countP (fun r =>
        match proc r with
        | Except.ok (some _) => true
        | _ => false) := by
    intro l
    induction l with
    | nil => exact ⟨rfl, rfl, rfl⟩
    | cons r rest ih =>
      obtain ⟨ih1, ih2, ih3⟩ := ih
      rw [ih1] at ih3
      cases hr : proc r with
      | error e =>
        simp [process_records_loop, hr, List.filterMap_cons, List.countP_cons, ih1, ih2, ih3]
      | ok o =>
        cases o with
        | none =>
          simp [process_records_loop, hr, List.filterMap_cons, List.countP_cons, ih1, ih2, ih3]
        | some d =>
          simp [process_records_loop, hr, List.filterMap_cons, List.countP_cons, ih1, ih2, ih3]
  obtain ⟨h1, h2, h3⟩ := main rows
  exact ⟨h1, h2, fun _hlen herr hsome => ⟨by rw [h3, hsome], by rw [h2, herr]⟩⟩

/-- C3 witness: 10 records numbered 0..9, record 5 raising, the rest producing
documents: 9 documents and 1 counted error. -/
theorem C3_per_record_isolation_witness :
    (List.range 10).length = 10 ∧
    ((List.range 10).countP (fun r =>
      match (fun n => if n = 5 then (Except.error "malformed" : Except String (Option Nat))
                      else Except.ok (some n)) r with
      | Except.error _ => true
      | _ => false)) = 1 ∧
    ((List.range 10).countP (fun r =>
      match (fun n => if n = 5 then (Except.error "malformed" : Except String (Option Nat))
                      else Except.ok (some n)) r with
      | Except.ok (some _) => true
      | _ => false)) = 9 ∧
    ((process_records_loop (fun n => if n = 5 then (Except.error "malformed" :
        Except String (Option Nat)) else Except.ok (some n)) (List.range 10)).1.length = 9 ∧
     (process_records_loop (fun n => if n = 5 then (Except.error "malformed" :
        Except String (Option Nat)) else Except.ok (some n)) (List.range 10)).2 = 1) :=
  ⟨by decide, by decide, by decide,
   (C3_per_record_isolation
     (fun n => if n = 5 then (Except.error "malformed" : Except String (Option Nat))
               else Except.ok (some n)) (List.range 10)).2.2
     (by decide) (by decide) (by decide)⟩

/-- Unfolding equation of the sink loop at a flush step. -/
theorem sink_flushes_cons_pos {δ : Type} (batch_size : Nat) (d : δ) (rest batch : List δ)
    (h : (batch ++ [d]).length ≥ batch_size) :
    sink_flushes batch_size (d :: rest) batch =
      (batch ++ [d]) :: sink_flushes batch_size rest [] := by
  simp only [sink_flushes]
  rw [if_pos h]

/-- Unfolding equation of the sink loop at an accumulate step. -/
theorem sink_flushes_cons_neg {δ : Type} (batch_size : Nat) (d : δ) (rest batch : List δ)
    (h : ¬ (batch ++ [d]).length ≥ batch_size) :
    sink_flushes batch_size (d :: rest) batch =
      sink_flushes batch_size rest (batch ++ [d]) := by
  simp only [sink_flushes]
  rw [if_neg h]

/-- Flattening the flushed batches restores the pending batch followed by the
full stream: nothing is lost or duplicated by the sink loop. -/
theorem sink_flushes_flatten {δ : Type} (batch_size : Nat) (docs : List δ) :
    ∀ batch : List δ, (sink_flushes batch_size docs batch).flatten = batch ++ docs := by
  induction docs with
  | nil =>
    intro batch
    cases hemp : batch.isEmpty with
    | true =>
      have hb0 : batch = [] := List.isEmpty_iff.mp hemp
      subst hb0
      simp [sink_flushes]
    | false =>
      simp [sink_flushes, hemp]
  | cons d rest ih =>
    intro batch
    by_cases h : (batch ++ [d]).length ≥ batch_size
    · rw [sink_flushes_cons_pos batch_size d rest batch h]
      simp [ih]
    · rw [sink_flushes_cons_neg batch_size d rest batch h]
      simp [ih]

/-- Every flush before stream end carries exactly `batch_size` documents, and
the final flush carries the remainder when non-zero. -/
theorem sink_flushes_shape {δ : Type} (batch_size : Nat) (hb : 0 < batch_size)
    (docs : List δ) :
    ∀ batch : List δ, batch.length < batch_size →
      (sink_flushes batch_size docs batch).map List.length =
        List.replicate ((batch.length + docs.length) / batch_size) batch_size ++
        (if (batch.length + docs.length) % batch_size = 0 then []
         else [(batch.length + docs.length) % batch_size]) := by
  induction docs with
  | nil =>
    intro batch hlt
    cases hemp : batch.isEmpty with
    | true =>
      have hb0 : batch = [] := List.isEmpty_iff.mp hemp
      subst hb0
      simp [sink_flushes]
    | false =>
      have hz : batch.length ≠ 0 := by
        intro h0
        rw [List.length_eq_zero] at h0
        subst h0
        simp at hemp
      have hstep : sink_flushes batch_size ([] : List δ) batch = [batch] := by
        simp [sink_flushes, hemp]
      rw [hstep]
      simp only [List.map_cons, List.map_nil, List.length_nil, Nat.add_zero]
      rw [Nat.div_eq_of_lt hlt, Nat.mod_eq_of_lt hlt]
      simp [hz]
  | cons d rest ih =>
    intro batch hlt
    by_cases h : (batch ++ [d]).length ≥ batch_size
    · rw [sink_flushes_cons_pos batch_size d rest batch h, List.map_cons, ih [] hb]
      have h1 : (batch ++ [d]).length = batch_size := by
        simp only [List.length_append, List.length_cons, List.length_nil] at h ⊢
        omega
      have h2 : batch.length + (d :: rest).length = batch_size + rest.length := by
        simp only [List.length_append, List.length_cons, List.length_nil] at h1
        simp only [List.length_cons]
        omega
      rw [h1, h2]
      simp only [List.length_nil, Nat.zero_add]
      rw [Nat.add_div_left rest.length hb, Nat.add_mod_left batch_size rest.length]
      simp [List.replicate_succ]
    · have hlt' : (batch ++ [d]).length < batch_size := by omega
      rw [sink_flushes_cons_neg batch_size d rest batch h, ih (batch ++ [d]) hlt']
      have h3 : (batch ++ [d]).length + rest.length = batch.length + (d :: rest).length := by
        simp only [List.length_append, List.length_cons, List.length_nil]
        omega
      rw [h3]

/-- C4: with a positive batch threshold, the sink loop flushes full batches of
exactly the threshold size, then one final flush of the non-zero remainder,
and the concatenation of all flushed batches is exactly the document stream —
every document is submitted exactly once. -/
theorem C4_batch_flush {δ : Type} (batch_size : Nat) (docs : List δ)
    (hb : 0 < batch_size) :
    (sink_flushes batch_size docs []).map List.length =
      List.replicate (docs.length / batch_size) batch_size ++
      (if docs.length % batch_size = 0 then [] else [docs.length % batch_size]) ∧
    (sink_flushes batch_size docs []).flatten = docs := by
  constructor
  · have h := sink_flushes_shape batch_size hb docs [] (by simpa using hb)
    simpa using h
  · simpa using sink_flushes_flatten batch_size docs []

/-- C4 witness: threshold 3 and 7 documents flush as batches of sizes 3, 3, 1
containing all 7 documents in order. -/
theorem C4_batch_flush_witness :
    0 < 3 ∧
    (sink_flushes 3 [0, 1, 2, 3, 4, 5, 6] ([] : List Nat)).map List.length = [3, 3, 1] ∧
    ((sink_flushes 3 [0, 1, 2, 3, 4, 5, 6] ([] : List Nat)).map List.length =
      List.replicate ([0, 1, 2, 3, 4, 5, 6].length / 3) 3 ++
      (if [0, 1, 2, 3, 4, 5, 6].length % 3 = 0 then []
       else [[0, 1, 2, 3, 4, 5, 6].length % 3]) ∧
     (sink_flushes 3 [0, 1, 2, 3, 4, 5, 6] ([] : List Nat)).flatten = [0, 1, 2, 3, 4, 5, 6]) :=
  ⟨by decide, by decide, C4_batch_flush 3 [0, 1, 2, 3, 4, 5, 6] (by decide)⟩

/-- C5 counterexample: an exception while opening/reading the top-level file
of an enhanced reader is re-raised to the consumer — the reader does not
behave as an exhausted (empty) sequence. -/
theorem C5_counterexample :
    enhanced_reader_run true (Except.error "read failure")
      (fun (_ : Unit) => (Except.ok (some 0) : Except String (Option Nat))) =
      Except.error "read failure" ∧
    (Except.error "read failure" : Except String (List Nat × Nat)) ≠
      Except.ok ([], 0) := by
  exact ⟨rfl, by simp⟩

/-- C5 (amended): the process_data.py readers swallow a top-level read failure
and end as an empty sequence (so main proceeds to the next stream), and they
yield nothing when the primary file is missing; the enhanced readers
(process_patients_enhanced, process_synthea_patients) yield nothing for a
missing file but RE-RAISE a top-level read failure to their consumer. -/
theorem C5_reader_failure_behavior {ρ δ : Type} (e : String) (mk : ρ → Option δ)
    (proc : ρ → Except String (Option δ)) (read_result : Except String (List ρ)) :
    basic_reader_run true (Except.error e) mk = [] ∧
    basic_reader_run false read_result mk = [] ∧
    enhanced_reader_run true (Except.error e) proc = Except.error e ∧
    enhanced_reader_run false read_result proc = Except.ok ([], 0) := by
  exact ⟨rfl, rfl, rfl, rfl⟩

/-- C1 counterexample: the Synthea assembler applies no age gate — a patient
whose computed age is 121 (outside [0,120]) still yields a non-null document,
where the claim requires null. Birth day 0 and current day 44200 give age
44200 fdiv 365 = 121. -/
theorem C1_counterexample :
    synthea_age 0 none 44200 = 121 ∧
    (process_synthea_patient (fun _ => 0) false 44200 "2024-01-01T00:00:00"
      ⟨"p1", "1900-01-01", none, none, none, none, none, none, none, none, none,
       none, none, none, none, none, none, none, none, none, none, none, none,
       none, none, none⟩
      [] [] [] []).isSome = true := by
  exact ⟨by decide, rfl⟩

/-- C1 (amended): MIMIC assembly (_process_single_patient) returns null
exactly when the computed age is uncomputable or outside [0,120] and a
document otherwise; Synthea assembly (_process_synthea_patient) performs no
age validation and returns a non-null document for every row, whatever the
computed age. -/
theorem C1_age_gate (md5_hexdigest : String → String) (anonymize : Bool)
    (today : Int) (now_iso : String) (patient : MimicPatientRow)
    (admissions_df : List AdmRow) (diagnoses_df : List DiagRow)
    (parse_date : String → Int) (syn_anonymize : Bool) (syn_today : Int)
    (syn_now_iso : String) (syn_patient : SyntheaRow)
    (conditions_df : List CondRow) (medications_df : List MedRow)
    (encounters_df : List EncRow) (observations_df : List ObsRow) :
    ((process_single_patient md5_hexdigest anonymize today now_iso patient
        admissions_df diagnoses_df).isSome = true ↔
      (∃ age, calculate_age patient today = some age ∧ 0 ≤ age ∧ age ≤ 120)) ∧
    (process_synthea_patient parse_date syn_anonymize syn_today syn_now_iso
        syn_patient conditions_df medications_df encounters_df
        observations_df).isSome = true := by
  constructor
  · cases hage : calculate_age patient today with
    | none => simp [process_single_patient, hage]
    | some age =>
      by_cases hrange : 0 ≤ age ∧ age ≤ 120
      · simp [process_single_patient, hage, hrange]
      · simp [process_single_patient, hage, hrange]
  · rfl

/-- C9: every patient, clinical-note, and lab-result document built by either
dialect's processors — the enhanced MIMIC patient and lab builders, the
enhanced Synthea patient builder, and the four basic process_data.py builders
— contains entries for all six mandatory fields id, type, source, timestamp,
title, and summary. -/
theorem C9_required_fields (md5_hexdigest : String → String) (anonymize : Bool)
    (today : Int) (now_iso : String) (patient : MimicPatientRow)
    (admissions_df : List AdmRow) (diagnoses_df : List DiagRow)
    (parse_float : String → Option Rat) (lab_items : List (Nat × String))
    (lab : LabRow) (parse_date : String → Int) (syn_patient : SyntheaRow)
    (conditions_df : List CondRow) (medications_df : List MedRow)
    (encounters_df : List EncRow) (observations_df : List ObsRow)
    (basic_patient : BasicMimicPatientRow) (basic_admissions : List BasicAdmRow)
    (note : NoteRow) :
    Option.all hasRequiredFields
      (process_single_patient md5_hexdigest anonymize today now_iso patient
        admissions_df diagnoses_df) = true ∧
    Option.all hasRequiredFields
      (process_lab_event_enhanced parse_float md5_hexdigest anonymize lab_items lab)
      = true ∧
    Option.all hasRequiredFields
      (process_synthea_patient parse_date anonymize today now_iso syn_patient
        conditions_df medications_df encounters_df observations_df) = true ∧
    hasRequiredFields (mimic_basic_patient_doc now_iso basic_patient basic_admissions)
      = true ∧
    Option.all hasRequiredFields (process_clinical_note now_iso note) = true ∧
    Option.all hasRequiredFields (process_lab_event now_iso lab_items lab) = true ∧
    hasRequiredFields (synthea_basic_patient_doc now_iso syn_patient) = true := by
  refine ⟨?_, ?_, rfl, rfl, ?_, ?_, rfl⟩
  · cases hage : calculate_age patient today with
    | none => simp [process_single_patient, hage]
    | some age =>
      by_cases hrange : 0 ≤ age ∧ age ≤ 120
      · simp only [process_single_patient, hage]
        rw [if_neg (by simpa using hrange)]
        rfl
      · simp only [process_single_patient, hage]
        rw [if_pos (by simpa using hrange)]
        rfl
  · cases hv : lab.VALUE with
    | none => simp [process_lab_event_enhanced, hv]
    | some v =>
      simp only [process_lab_event_enhanced, hv]
      rfl
  · by_cases h : (note.TEXT.isNone || py_strip ((note.TEXT).getD "") = "") = true
    · simp [process_clinical_note, h]
    · simp only [process_clinical_note]
      rw [if_neg (by simpa using h)]
      rfl
  · cases hv : lab.VALUE with
    | none => simp [process_lab_event, hv]
    | some v =>
      simp only [process_lab_event, hv]
      rfl
